import Mathlib

/-
Shallow embedding of the Vulkan hello-window application (src/src/main.cpp):
the data model and the pure selection and suitability logic of its
initialization pipeline, together with theorems checking the stated
properties of that logic.

Machine integers (uint32_t fields of the Vulkan records) are modelled as
Nat; wrap-around is written explicitly as % 4294967296 at the one place
the source performs uint32 arithmetic (minImageCount + 1).
-/

namespace HelloWindow

/-- VK_QUEUE_GRAPHICS_BIT = 0x00000001. -/
def VK_QUEUE_GRAPHICS_BIT : Nat := 1

/-- VK_FORMAT_B8G8R8A8_SRGB numeric code (50). -/
def VK_FORMAT_B8G8R8A8_SRGB : Nat := 50

/-- VK_COLOR_SPACE_SRGB_NONLINEAR_KHR numeric code (0). -/
def VK_COLOR_SPACE_SRGB_NONLINEAR_KHR : Nat := 0

/-- VK_PRESENT_MODE_MAILBOX_KHR numeric code (1). -/
def VK_PRESENT_MODE_MAILBOX_KHR : Nat := 1

/-- VK_PRESENT_MODE_FIFO_KHR numeric code (2). -/
def VK_PRESENT_MODE_FIFO_KHR : Nat := 2

/-- std::numeric_limits of uint32_t, the "undefined extent" sentinel value. -/
def UINT32_MAX : Nat := 4294967295

/-- VK_KHR_SWAPCHAIN_EXTENSION_NAME. -/
def VK_KHR_SWAPCHAIN_EXTENSION_NAME : String := "VK_KHR_swapchain"

/-- `const std::vector DEVICE_EXTENSIONS = { VK_KHR_SWAPCHAIN_EXTENSION_NAME }` (main.cpp:29). -/
def DEVICE_EXTENSIONS : List String := [VK_KHR_SWAPCHAIN_EXTENSION_NAME]

/-- `const std::vector VALIDATION_LAYERS = { VK_LAYER_KHRONOS_validation }` (main.cpp:25). -/
def VALIDATION_LAYERS : List String := ["VK_LAYER_KHRONOS_validation"]

/-- One queue family of a physical device: its VkQueueFamilyProperties.queueFlags
together with the answer of vkGetPhysicalDeviceSurfaceSupportKHR for this
family's index against the app's surface (both are per-index driver data
consumed by App::findQueueFamilies). -/
structure VkQueueFamilyProperties where
  queueFlags : Nat
  presentSupport : Bool
deriving DecidableEq, Repr

/-- VkExtent2D. -/
structure VkExtent2D where
  width : Nat
  height : Nat
deriving DecidableEq, Repr

/-- The fields of VkSurfaceCapabilitiesKHR that App reads. -/
structure VkSurfaceCapabilitiesKHR where
  minImageCount : Nat
  maxImageCount : Nat
  currentExtent : VkExtent2D
  minImageExtent : VkExtent2D
  maxImageExtent : VkExtent2D
deriving DecidableEq, Repr

/-- VkSurfaceFormatKHR: a pixel format code paired with a color space code. -/
structure VkSurfaceFormatKHR where
  format : Nat
  colorSpace : Nat
deriving DecidableEq, Repr

/-- A physical device as seen through the driver queries App performs on it:
its queue families (with per-index surface support), its available device
extensions, and the surface capability / format / present-mode data returned
by App::querySwapChainSupport for the (device, surface) pair. -/
structure VkPhysicalDevice where
  queueFamilies : List VkQueueFamilyProperties
  availableExtensions : List String
  capabilities : VkSurfaceCapabilitiesKHR
  formats : List VkSurfaceFormatKHR
  presentModes : List Nat
deriving DecidableEq, Repr

/-- struct QueueFamilyIndices (main.cpp:62). -/
structure QueueFamilyIndices where
  graphicsFamily : Option Nat
  presentFamily : Option Nat
deriving DecidableEq, Repr

/-- QueueFamilyIndices::isComplete (main.cpp:66). -/
def QueueFamilyIndices.isComplete (q : QueueFamilyIndices) : Bool :=
  q.graphicsFamily.isSome && q.presentFamily.isSome

/-- `queueFamily.queueFlags & VK_QUEUE_GRAPHICS_BIT` as a Bool (main.cpp:355). -/
def hasGraphicsFlag (qf : VkQueueFamilyProperties) : Bool :=
  decide (qf.queueFlags &&& VK_QUEUE_GRAPHICS_BIT ≠ 0)

/-- The loop of App::findQueueFamilies (main.cpp:353-371): walk the families
in index order, overwrite graphicsFamily at every family whose flags contain
the graphics bit and presentFamily at every family with surface support, and
break as soon as the record is complete. -/
def findQueueFamiliesLoop : QueueFamilyIndices → Nat → List VkQueueFamilyProperties → QueueFamilyIndices
  | indices, _, [] => indices
  | indices, i, qf :: rest =>
      let indices1 :=
        if hasGraphicsFlag qf then { indices with graphicsFamily := some i } else indices
      let indices2 :=
        if qf.presentSupport then { indices1 with presentFamily := some i } else indices1
      if indices2.isComplete then indices2
      else findQueueFamiliesLoop indices2 (i + 1) rest

/-- App::findQueueFamilies (main.cpp:344). -/
def findQueueFamilies (device : VkPhysicalDevice) : QueueFamilyIndices :=
  findQueueFamiliesLoop ⟨none, none⟩ 0 device.queueFamilies

/-- App::checkValidationLayerSupport (main.cpp:143): for each required layer
name, scan the available layer properties for an exact strcmp match; return
false as soon as one required layer is not found, true otherwise. The source
fixes the required list to VALIDATION_LAYERS and queries the available list
from the driver; both are parameters here, quantified as in the claim. -/
def checkValidationLayerSupport (validationLayers availableLayers : List String) : Bool :=
  validationLayers.all fun layerName =>
    availableLayers.any fun layerProperties => layerName == layerProperties

/-- App::checkDeviceExtensionSupport (main.cpp:314): build a std::set from the
required device extension names, erase every available extension name from it,
and report whether the set ended up empty. The std::set is modelled as a
Finset String. The source fixes the required list to DEVICE_EXTENSIONS and
queries the available list from the driver; both are parameters here. -/
def checkDeviceExtensionSupport (deviceExtensions availableExtensions : List String) : Bool :=
  let requiredExtensions : Finset String := deviceExtensions.toFinset
  decide (availableExtensions.foldl (fun s extensionName => s.erase extensionName) requiredExtensions = ∅)

/-- App::selectSwapSurfaceFormat (main.cpp:490): return the first available
format that is B8G8R8A8_SRGB with SRGB_NONLINEAR color space, else fall back
to availableFormats[0]. Indexing an empty vector is undefined behaviour in the
source; the embedding returns none for it (head? of the empty list). -/
def selectSwapSurfaceFormat (availableFormats : List VkSurfaceFormatKHR) : Option VkSurfaceFormatKHR :=
  match availableFormats.find? (fun f =>
      f.format == VK_FORMAT_B8G8R8A8_SRGB && f.colorSpace == VK_COLOR_SPACE_SRGB_NONLINEAR_KHR) with
  | some f => some f
  | none => availableFormats.head?

/-- std::clamp(v, lo, hi): lo if v < lo, hi if hi < v, else v (main.cpp:517). -/
def stdClamp (v lo hi : Nat) : Nat :=
  if v < lo then lo else if hi < v then hi else v

/-- The window as App::selectSwapExtent sees it: the width and height reported
by glfwGetWindowSize (non-negative ints, cast to uint32_t by the source). -/
structure Window where
  width : Nat
  height : Nat
deriving DecidableEq, Repr

/-- App::selectSwapExtent (main.cpp:510): if capabilities.currentExtent.width
is not UINT32_MAX, return currentExtent verbatim; otherwise clamp the window's
width and height independently into the [minImageExtent, maxImageExtent] range
per axis. The static_cast of the int window size to uint32_t is the explicit
% 2^32. -/
def selectSwapExtent (window : Window) (capabilities : VkSurfaceCapabilitiesKHR) : VkExtent2D :=
  if capabilities.currentExtent.width ≠ UINT32_MAX then
    capabilities.currentExtent
  else
    { width := stdClamp (window.width % 4294967296)
        capabilities.minImageExtent.width capabilities.maxImageExtent.width,
      height := stdClamp (window.height % 4294967296)
        capabilities.minImageExtent.height capabilities.maxImageExtent.height }

/-- The imageCount lambda of App::createSwapChain (main.cpp:541-548):
minImageCount + 1 in uint32 arithmetic, replaced by maxImageCount when
maxImageCount is positive and exceeded. -/
def swapChainImageCount (capabilities : VkSurfaceCapabilitiesKHR) : Nat :=
  let imageCount := (capabilities.minImageCount + 1) % 4294967296
  if capabilities.maxImageCount > 0 ∧ imageCount > capabilities.maxImageCount then
    capabilities.maxImageCount
  else
    imageCount

/-- struct SwapChainSupportDetails (main.cpp:71). -/
structure SwapChainSupportDetails where
  capabilities : VkSurfaceCapabilitiesKHR
  formats : List VkSurfaceFormatKHR
  presentModes : List Nat
deriving DecidableEq, Repr

/-- App::querySwapChainSupport (main.cpp:467): the capability, format and
present-mode queries for the (device, surface) pair; in the embedding that
driver data is carried by the VkPhysicalDevice record itself. -/
def querySwapChainSupport (device : VkPhysicalDevice) : SwapChainSupportDetails :=
  { capabilities := device.capabilities
    formats := device.formats
    presentModes := device.presentModes }

/-- App::isPhysicalDeviceSuitable (main.cpp:330): complete queue-family
indices, required device extensions supported, and — queried only when the
extension check holds — non-empty surface-format and present-mode lists. -/
def isPhysicalDeviceSuitable (device : VkPhysicalDevice) : Bool :=
  let indices := findQueueFamilies device
  let extensionsSupported := checkDeviceExtensionSupport DEVICE_EXTENSIONS device.availableExtensions
  let swapChainAdequate :=
    if extensionsSupported then
      let swapChainSupport := querySwapChainSupport device
      !swapChainSupport.formats.isEmpty && !swapChainSupport.presentModes.isEmpty
    else
      false
  indices.isComplete && extensionsSupported && swapChainAdequate

/-- The error conditions of App::selectPhysicalDevice. -/
inductive VkError
  | NoGPUError
  | NoSuitableDeviceError
deriving DecidableEq, Repr

/-- App::selectPhysicalDevice (main.cpp:376): throw NoGPUError when the
enumerated device count is zero; otherwise scan the devices in enumeration
order, keep the first suitable one, and throw NoSuitableDeviceError when the
scan leaves the selection at the null sentinel. The null-handle sentinel of
the source is modelled by Option (find?). -/
def selectPhysicalDevice (physicalDevices : List VkPhysicalDevice) : Except VkError VkPhysicalDevice :=
  if physicalDevices.length = 0 then
    Except.error VkError.NoGPUError
  else
    match physicalDevices.find? (fun d => isPhysicalDeviceSuitable d) with
    | some selected => Except.ok selected
    | none => Except.error VkError.NoSuitableDeviceError

/-- The `std::set { indices.graphicsFamily.value(), indices.presentFamily.value() }`
built by App::createLogicalDevice (main.cpp:404): none models the
std::bad_optional_access raised by .value() on an empty optional. -/
def createLogicalDeviceUniqueQueueFamilies (device : VkPhysicalDevice) : Option (Finset Nat) :=
  let indices := findQueueFamilies device
  match indices.graphicsFamily, indices.presentFamily with
  | some g, some p => some {g, p}
  | _, _ => none

/-- The `std::array { indices.graphicsFamily.value(), indices.presentFamily.value() }`
built by App::createSwapChain (main.cpp:550): none models the
std::bad_optional_access raised by .value() on an empty optional. -/
def createSwapChainQueueFamilyIndices (device : VkPhysicalDevice) : Option (List Nat) :=
  let indices := findQueueFamilies device
  match indices.graphicsFamily, indices.presentFamily with
  | some g, some p => some [g, p]
  | _, _ => none

/-- App::selectSwapPresentMode (main.cpp:500): return the first available mode
equal to mailbox, else FIFO. -/
def selectSwapPresentMode (availablePresentModes : List Nat) : Nat :=
  match availablePresentModes.find? (fun m => m == VK_PRESENT_MODE_MAILBOX_KHR) with
  | some m => m
  | none => VK_PRESENT_MODE_FIFO_KHR

/-- The resources App::run acquires (m_window, m_instance, m_debugMessenger,
m_surface, m_device, m_swapChain, m_swapChainImageViews[i], plus the GLFW
library itself). -/
inductive Resource
  | glfwLibrary
  | window
  | vkInstance
  | debugMessenger
  | surface
  | device
  | swapChain
  | imageView (i : Nat)
deriving DecidableEq, Repr

/-- A creation or destruction of one resource, as performed by the
initialization steps and by App::cleanup. -/
inductive Event
  | create (r : Resource)
  | destroy (r : Resource)
deriving DecidableEq, Repr

/-- Whether an event is a destruction. -/
def Event.isDestroy : Event → Bool
  | Event.create _ => false
  | Event.destroy _ => true

/-- The initialization steps of App::initVulkan at which the claim injects a
failure (a throw out of the corresponding member function). -/
inductive FailPoint
  | atInstance
  | atDebugMessenger
  | atSurface
  | atSelectPhysicalDevice
  | atLogicalDevice
  | atSwapChain
  | atImageView (k : Nat)
deriving DecidableEq, Repr

/-- Sequencing state of App::run: the events so far and whether an exception
has already escaped (ok = false once a step threw; every later step is
skipped because the exception propagates out of App::run to main, which only
prints the error — App::cleanup is reached only on the fully successful
path). -/
structure RunState where
  events : List Event
  ok : Bool
deriving DecidableEq, Repr

/-- Run one initialization step: if a step already threw, do nothing; if this
step is the injected failure, record the events the step performed before
throwing and mark the run failed; otherwise record the step's events. -/
def runStep (s : RunState) (fails : Bool) (eventsBeforeThrow eventsOnSuccess : List Event) : RunState :=
  if s.ok then
    if fails then ⟨s.events ++ eventsBeforeThrow, false⟩
    else ⟨s.events ++ eventsOnSuccess, true⟩
  else s

/-- App::cleanup (main.cpp:667): destroy each image view in the order the
m_swapChainImageViews vector holds them, then the swapchain, the device, the
debug messenger (only when validation layers are enabled), the surface, the
instance, the window, and terminate GLFW. -/
def cleanupEvents (enableValidationLayers : Bool) (numImageViews : Nat) : List Event :=
  ((List.range numImageViews).map fun i => Event.destroy (Resource.imageView i)) ++
    [Event.destroy Resource.swapChain, Event.destroy Resource.device] ++
    (if enableValidationLayers then [Event.destroy Resource.debugMessenger] else []) ++
    [Event.destroy Resource.surface, Event.destroy Resource.vkInstance,
     Event.destroy Resource.window, Event.destroy Resource.glfwLibrary]

/-- App::run with a scripted failure injected at failAt (none = no failure):
createGLFWLibrary, createWindow, then initVulkan's steps in order —
createInstance, setupDebugMessenger (creates the messenger only when
validation layers are enabled), createSurface, selectPhysicalDevice (creates
nothing), createLogicalDevice, createSwapChain, createImageViews (one view
per swapchain image; a failure at index k happens only when k < numImages and
leaves views 0..k-1 created) — and finally cleanup, which runs only when no
step threw, because a throw propagates out of App::run past cleanup. -/
def runTrace (enableValidationLayers : Bool) (numImages : Nat) (failAt : Option FailPoint) : List Event :=
  let s0 : RunState := ⟨[], true⟩
  let s1 := runStep s0 false [] [Event.create Resource.glfwLibrary]
  let s2 := runStep s1 false [] [Event.create Resource.window]
  let s3 := runStep s2 (decide (failAt = some FailPoint.atInstance)) [] [Event.create Resource.vkInstance]
  let s4 :=
    if enableValidationLayers then
      runStep s3 (decide (failAt = some FailPoint.atDebugMessenger)) [] [Event.create Resource.debugMessenger]
    else s3
  let s5 := runStep s4 (decide (failAt = some FailPoint.atSurface)) [] [Event.create Resource.surface]
  let s6 := runStep s5 (decide (failAt = some FailPoint.atSelectPhysicalDevice)) [] []
  let s7 := runStep s6 (decide (failAt = some FailPoint.atLogicalDevice)) [] [Event.create Resource.device]
  let s8 := runStep s7 (decide (failAt = some FailPoint.atSwapChain)) [] [Event.create Resource.swapChain]
  let s9 :=
    match failAt with
    | some (FailPoint.atImageView k) =>
        runStep s8 (decide (k < numImages))
          ((List.range k).map fun i => Event.create (Resource.imageView i))
          ((List.range numImages).map fun i => Event.create (Resource.imageView i))
    | _ =>
        runStep s8 false [] ((List.range numImages).map fun i => Event.create (Resource.imageView i))
  if s9.ok then s9.events ++ cleanupEvents enableValidationLayers numImages else s9.events

/-- Which failure points are actually reachable in the run being modelled: the
debug-messenger step executes only when validation layers are enabled, and an
image-view failure index must lie below the image count. -/
def failReached (enableValidationLayers : Bool) (numImages : Nat) : FailPoint → Prop
  | FailPoint.atDebugMessenger => enableValidationLayers = true
  | FailPoint.atImageView k => k < numImages
  | _ => True

/-- The resources a fully successful run creates, in creation order. -/
def createdResources (v : Bool) (n : Nat) : List Resource :=
  [Resource.glfwLibrary, Resource.window, Resource.vkInstance] ++
    (if v then [Resource.debugMessenger] else []) ++
    [Resource.surface, Resource.device, Resource.swapChain] ++
    (List.range n).map Resource.imageView

/-- The resources App::cleanup destroys, in destruction order. -/
def destroyedResources (v : Bool) (n : Nat) : List Resource :=
  (List.range n).map Resource.imageView ++
    [Resource.swapChain, Resource.device] ++
    (if v then [Resource.debugMessenger] else []) ++
    [Resource.surface, Resource.vkInstance, Resource.window, Resource.glfwLibrary]

/-- The present-support predicate of a queue family, as a named function. -/
def presentFlag (qf : VkQueueFamilyProperties) : Bool := qf.presentSupport

/-- The first of two optional indices that is present (a left-biased choice). -/
def ofirst (a b : Option Nat) : Option Nat :=
  match a with
  | some x => some x
  | none => b

/-- The largest index of a list element satisfying p, if any. -/
def lastIdxWhere (p : VkQueueFamilyProperties → Bool) : List VkQueueFamilyProperties → Option Nat
  | [] => none
  | qf :: rest =>
      match lastIdxWhere p rest with
      | some j => some (j + 1)
      | none => if p qf then some 0 else none

/-- Length of the prefix of the queue-family list the scan visits, given which
of the two roles have already been seen: the scan consumes families until the
first one at which both a graphics-capable and a present-supporting family
have been encountered, or the whole list when that never happens. -/
def scannedLenAux : Bool → Bool → List VkQueueFamilyProperties → Nat
  | _, _, [] => 0
  | hasG, hasP, qf :: rest =>
      let hg := hasG || hasGraphicsFlag qf
      let hp := hasP || presentFlag qf
      if hg && hp then 1 else 1 + scannedLenAux hg hp rest

/-- Length of the prefix of the queue-family list that App::findQueueFamilies
actually visits before its early break (the whole list when the break never
fires). -/
def scannedLen (qfs : List VkQueueFamilyProperties) : Nat := scannedLenAux false false qfs

/-- A surface-capabilities record with every field zero, used as a neutral
filler for fixtures whose claims do not look at the capabilities. -/
def exCapsZero : VkSurfaceCapabilitiesKHR := ⟨0, 0, ⟨0, 0⟩, ⟨0, 0⟩, ⟨0, 0⟩⟩

/-- Fixture for C1: family 0 and family 1 are graphics-only, family 2 is
present-only; the first graphics-capable index is 0, yet the scan keeps
overwriting and reports index 1. -/
def exOverwriteDevice : VkPhysicalDevice :=
  { queueFamilies := [⟨1, false⟩, ⟨1, false⟩, ⟨0, true⟩]
    availableExtensions := []
    capabilities := exCapsZero
    formats := []
    presentModes := [] }

/-- Fixture for C1: family 0 is present-only, family 1 offers both roles; the
scan stops at family 1 and reports it for both. -/
def exBothDevice : VkPhysicalDevice :=
  { queueFamilies := [⟨0, true⟩, ⟨1, true⟩]
    availableExtensions := []
    capabilities := exCapsZero
    formats := []
    presentModes := [] }

/-- Fixture: a fully suitable physical device (one combined graphics+present
family, the swapchain extension available, a format and a present mode). -/
def exSuitableDevice : VkPhysicalDevice :=
  { queueFamilies := [⟨1, true⟩]
    availableExtensions := ["VK_KHR_swapchain"]
    capabilities := exCapsZero
    formats := [⟨50, 0⟩]
    presentModes := [2] }

/-- Fixture builder: a capabilities record with the given min/max image counts
and zero extents. -/
def exCapsCount (minC maxC : Nat) : VkSurfaceCapabilitiesKHR :=
  ⟨minC, maxC, ⟨0, 0⟩, ⟨0, 0⟩, ⟨0, 0⟩⟩

/-- Fixture for C8: the current extent's width is the max-uint32 sentinel but
its height (720) is not, so the extent pair is not the undefined-sentinel
pair, yet the source still takes the clamping branch. -/
def exCapsHalfSentinel : VkSurfaceCapabilitiesKHR :=
  ⟨0, 0, ⟨4294967295, 720⟩, ⟨0, 0⟩, ⟨4096, 4096⟩⟩

/-- Fixture for C8: a fully undefined current extent with image extents
bounded by 1280 by 720. -/
def exCapsSentinel : VkSurfaceCapabilitiesKHR :=
  ⟨0, 0, ⟨4294967295, 4294967295⟩, ⟨1, 1⟩, ⟨1280, 720⟩⟩

/-- Fixture for C8: a defined current extent of 1024 by 768. -/
def exCapsDefined : VkSurfaceCapabilitiesKHR :=
  ⟨0, 0, ⟨1024, 768⟩, ⟨0, 0⟩, ⟨0, 0⟩⟩

theorem ofirst_none_right (a : Option Nat) : ofirst a none = a := by
  cases a <;> rfl

theorem ofirst_lastIdxWhere_cons (p1 : VkQueueFamilyProperties → Bool)
    (qf : VkQueueFamilyProperties) (s : List VkQueueFamilyProperties) (i : Nat) (o : Option Nat) :
    ofirst ((lastIdxWhere p1 (qf :: s)).map fun j => i + j) o =
      ofirst ((lastIdxWhere p1 s).map fun j => (i + 1) + j) (if p1 qf then some i else o) := by
  cases hrec : lastIdxWhere p1 s with
  | none => cases hq : p1 qf <;> simp [lastIdxWhere, hrec, hq, ofirst]
  | some j =>
      simp only [lastIdxWhere, hrec, Option.map_some', ofirst]
      exact congrArg some (by omega)

theorem findQueueFamiliesLoop_eq (l : List VkQueueFamilyProperties) :
    ∀ (g p : Option Nat) (i : Nat), (g.isSome && p.isSome) = false →
      findQueueFamiliesLoop ⟨g, p⟩ i l =
        ⟨ofirst ((lastIdxWhere hasGraphicsFlag (l.take (scannedLenAux g.isSome p.isSome l))).map fun j => i + j) g,
         ofirst ((lastIdxWhere presentFlag (l.take (scannedLenAux g.isSome p.isSome l))).map fun j => i + j) p⟩ := by
  induction l with
  | nil =>
      intro g p i h
      simp [findQueueFamiliesLoop, scannedLenAux, lastIdxWhere, ofirst]
  | cons qf rest ih =>
      intro g p i h
      have hp1 : presentFlag qf = qf.presentSupport := rfl
      cases hgb : hasGraphicsFlag qf <;> cases hpb : qf.presentSupport
      · -- no graphics bit, no present support: the step neither records nor completes
        have hstep : findQueueFamiliesLoop ⟨g, p⟩ i (qf :: rest) =
            findQueueFamiliesLoop ⟨g, p⟩ (i + 1) rest := by
          simp [findQueueFamiliesLoop, hgb, hpb, QueueFamilyIndices.isComplete, h]
        have hlen : scannedLenAux g.isSome p.isSome (qf :: rest) =
            1 + scannedLenAux g.isSome p.isSome rest := by
          simp [scannedLenAux, hgb, hpb, hp1, h]
        rw [hstep, hlen, Nat.add_comm 1, List.take_succ_cons,
          ofirst_lastIdxWhere_cons hasGraphicsFlag qf _ i g,
          ofirst_lastIdxWhere_cons presentFlag qf _ i p, hgb, hp1, hpb]
        simp only [if_false, Bool.false_eq_true]
        exact ih g p (i + 1) h
      · -- present support only at qf
        cases g with
        | some u =>
            have hstep : findQueueFamiliesLoop ⟨some u, p⟩ i (qf :: rest) = ⟨some u, some i⟩ := by
              simp [findQueueFamiliesLoop, hgb, hpb, QueueFamilyIndices.isComplete]
            have hlen : scannedLenAux (some u : Option Nat).isSome p.isSome (qf :: rest) = 1 := by
              simp [scannedLenAux, hgb, hpb, hp1]
            rw [hstep, hlen]
            simp [lastIdxWhere, hgb, hp1, hpb, ofirst]
        | none =>
            have hstep : findQueueFamiliesLoop ⟨none, p⟩ i (qf :: rest) =
                findQueueFamiliesLoop ⟨none, some i⟩ (i + 1) rest := by
              simp [findQueueFamiliesLoop, hgb, hpb, QueueFamilyIndices.isComplete]
            have hlen : scannedLenAux (none : Option Nat).isSome p.isSome (qf :: rest) =
                1 + scannedLenAux false true rest := by
              simp [scannedLenAux, hgb, hpb, hp1]
            rw [hstep, hlen, Nat.add_comm 1, List.take_succ_cons,
              ofirst_lastIdxWhere_cons hasGraphicsFlag qf _ i none,
              ofirst_lastIdxWhere_cons presentFlag qf _ i p, hgb, hp1, hpb]
            simp only [if_false, if_true, Bool.false_eq_true]
            exact ih none (some i) (i + 1) rfl
      · -- graphics bit only at qf
        cases p with
        | some v =>
            have hstep : findQueueFamiliesLoop ⟨g, some v⟩ i (qf :: rest) = ⟨some i, some v⟩ := by
              simp [findQueueFamiliesLoop, hgb, hpb, QueueFamilyIndices.isComplete]
            have hlen : scannedLenAux g.isSome (some v : Option Nat).isSome (qf :: rest) = 1 := by
              simp [scannedLenAux, hgb, hpb, hp1]
            rw [hstep, hlen]
            simp [lastIdxWhere, hgb, hp1, hpb, ofirst]
        | none =>
            have hstep : findQueueFamiliesLoop ⟨g, none⟩ i (qf :: rest) =
                findQueueFamiliesLoop ⟨some i, none⟩ (i + 1) rest := by
              simp [findQueueFamiliesLoop, hgb, hpb, QueueFamilyIndices.isComplete]
            have hlen : scannedLenAux g.isSome (none : Option Nat).isSome (qf :: rest) =
                1 + scannedLenAux true false rest := by
              simp [scannedLenAux, hgb, hpb, hp1]
            rw [hstep, hlen, Nat.add_comm 1, List.take_succ_cons,
              ofirst_lastIdxWhere_cons hasGraphicsFlag qf _ i g,
              ofirst_lastIdxWhere_cons presentFlag qf _ i none, hgb, hp1, hpb]
            simp only [if_false, if_true, Bool.false_eq_true]
            exact ih (some i) none (i + 1) rfl
      · -- both roles at qf: the step records both and completes
        have hstep : findQueueFamiliesLoop ⟨g, p⟩ i (qf :: rest) = ⟨some i, some i⟩ := by
          simp [findQueueFamiliesLoop, hgb, hpb, QueueFamilyIndices.isComplete]
        have hlen : scannedLenAux g.isSome p.isSome (qf :: rest) = 1 := by
          simp [scannedLenAux, hgb, hpb, hp1]
        rw [hstep, hlen]
        simp [lastIdxWhere, hgb, hp1, hpb, ofirst]

theorem lastIdxWhere_append_true (p1 : VkQueueFamilyProperties → Bool)
    (s : List VkQueueFamilyProperties) (qf : VkQueueFamilyProperties) (h : p1 qf = true) :
    lastIdxWhere p1 (s ++ [qf]) = some s.length := by
  induction s with
  | nil => simp [lastIdxWhere, h]
  | cons a s ih => simp [lastIdxWhere, ih]

/-- Claim C7: for every list of available present modes, present-mode selection
returns mailbox if mailbox is in the list, and otherwise returns FIFO, even if
FIFO is itself absent from the input list; the selection is a total function
and never fails. -/
theorem selectSwapPresentMode_mailbox_else_fifo (availablePresentModes : List Nat) :
    selectSwapPresentMode availablePresentModes =
      if VK_PRESENT_MODE_MAILBOX_KHR ∈ availablePresentModes then VK_PRESENT_MODE_MAILBOX_KHR
      else VK_PRESENT_MODE_FIFO_KHR := by
  unfold selectSwapPresentMode
  by_cases hmem : VK_PRESENT_MODE_MAILBOX_KHR ∈ availablePresentModes
  · have hsome : availablePresentModes.find? (fun m => m == VK_PRESENT_MODE_MAILBOX_KHR) =
        some VK_PRESENT_MODE_MAILBOX_KHR := by
      rcases hfind : availablePresentModes.find? (fun m => m == VK_PRESENT_MODE_MAILBOX_KHR) with _ | m
      · rw [List.find?_eq_none] at hfind
        exact absurd (by simp : (VK_PRESENT_MODE_MAILBOX_KHR == VK_PRESENT_MODE_MAILBOX_KHR) = true)
          (by simpa using hfind _ hmem)
      · have := List.find?_some hfind
        simp only [beq_iff_eq] at this
        rw [this]
    rw [hsome, if_pos hmem]
  · have hnone : availablePresentModes.find? (fun m => m == VK_PRESENT_MODE_MAILBOX_KHR) = none := by
      rw [List.find?_eq_none]
      intro x hx
      simp only [beq_iff_eq]
      intro hx2
      exact hmem (hx2 ▸ hx)
    rw [hnone, if_neg hmem]

/-- Claim C1 counterexample: on a device whose families are graphics-only,
graphics-only, present-only, the first graphics-capable index is 0, but
findQueueFamilies keeps overwriting while it scans on for present support and
returns index 1 as graphicsFamily — so the scan does not return the first
index whose flags include graphics capability. -/
theorem findQueueFamilies_not_first_graphics :
    (findQueueFamilies exOverwriteDevice).graphicsFamily = some 1 ∧
    exOverwriteDevice.queueFamilies.findIdx? (fun qf => hasGraphicsFlag qf) = some 0 := by
  decide

/-- Claim C1 (amended): the queue-family scan visits families in index order
and stops early after the first index at which both a graphics-capable family
and a present-supporting family have been seen (scannedLen); within that
scanned prefix it returns the last graphics-capable index as graphicsFamily
and the last present-supporting index as presentFamily (each field is
overwritten at every later match, so the last match wins, not the first); in
particular, when the family at which the scan stops offers both capabilities,
both returned indices equal that family's index. -/
theorem findQueueFamilies_last_within_scan (d : VkPhysicalDevice) :
    (findQueueFamilies d =
      ⟨lastIdxWhere hasGraphicsFlag (d.queueFamilies.take (scannedLen d.queueFamilies)),
       lastIdxWhere presentFlag (d.queueFamilies.take (scannedLen d.queueFamilies))⟩) ∧
    (∀ k qf, d.queueFamilies.get? k = some qf → scannedLen d.queueFamilies = k + 1 →
      hasGraphicsFlag qf = true → presentFlag qf = true →
      findQueueFamilies d = ⟨some k, some k⟩) := by
  have hzero : ∀ o : Option Nat, (o.map fun j => 0 + j) = o := by
    intro o
    cases o <;> simp
  have hmain := findQueueFamiliesLoop_eq d.queueFamilies none none 0 rfl
  rw [hzero, hzero, ofirst_none_right, ofirst_none_right] at hmain
  have hmain2 : findQueueFamilies d =
      ⟨lastIdxWhere hasGraphicsFlag (d.queueFamilies.take (scannedLen d.queueFamilies)),
       lastIdxWhere presentFlag (d.queueFamilies.take (scannedLen d.queueFamilies))⟩ := hmain
  refine ⟨hmain2, ?_⟩
  intro k qf hget hlen hg hp
  have hk : k < d.queueFamilies.length := by
    by_contra h2
    push_neg at h2
    rw [List.get?_eq_none.mpr h2] at hget
    exact Option.noConfusion hget
  have htake : d.queueFamilies.take (scannedLen d.queueFamilies) =
      d.queueFamilies.take k ++ [qf] := by
    rw [hlen, List.take_succ]
    rw [List.get?_eq_getElem?] at hget
    rw [hget]
    rfl
  have hlentake : (d.queueFamilies.take k).length = k := by
    rw [List.length_take]
    exact Nat.min_eq_left (Nat.le_of_lt hk)
  rw [hmain2, htake, lastIdxWhere_append_true hasGraphicsFlag _ _ hg,
    lastIdxWhere_append_true presentFlag _ _ hp, hlentake]

/-- Claim C1 witness: on the fixture whose family 1 is the first to offer both
roles, the amended theorem concretely yields indices (1, 1). -/
theorem findQueueFamilies_last_within_scan_witness :
    findQueueFamilies exBothDevice = ⟨some 1, some 1⟩ :=
  (findQueueFamilies_last_within_scan exBothDevice).2 1 ⟨1, true⟩
    (by decide) (by decide) (by decide) (by decide)

theorem foldl_erase_eq_sdiff (l : List String) :
    ∀ s : Finset String, l.foldl (fun s extensionName => s.erase extensionName) s = s \ l.toFinset := by
  induction l with
  | nil =>
      intro s
      simp
  | cons a l ih =>
      intro s
      rw [List.foldl_cons, ih, List.toFinset_cons, Finset.erase_eq, Finset.insert_eq,
        sdiff_sdiff, Finset.sup_eq_union]

theorem bool_eq_of_iff {a b : Bool} (h : a = true ↔ b = true) : a = b := by
  cases a <;> cases b <;> simp_all

/-- Claim C3: for all required/available extension (or layer) name list pairs,
both subset checks — the std::set-erase one of checkDeviceExtensionSupport and
the strcmp-scan one of checkValidationLayerSupport — return true iff every
required name appears in the available list under exact string equality; and
both are unchanged under reordering of either list (hence also tolerant of
duplicates, membership being all the result depends on). -/
theorem subset_check_iff_every_required_available :
    (∀ required available : List String,
        (checkDeviceExtensionSupport required available = true ↔ ∀ r ∈ required, r ∈ available) ∧
        (checkValidationLayerSupport required available = true ↔ ∀ r ∈ required, r ∈ available)) ∧
    (∀ req1 req2 av1 av2 : List String, req1.Perm req2 → av1.Perm av2 →
        checkDeviceExtensionSupport req1 av1 = checkDeviceExtensionSupport req2 av2 ∧
        checkValidationLayerSupport req1 av1 = checkValidationLayerSupport req2 av2) := by
  have hdev : ∀ required available : List String,
      (checkDeviceExtensionSupport required available = true ↔ ∀ r ∈ required, r ∈ available) := by
    intro required available
    rw [checkDeviceExtensionSupport]
    rw [foldl_erase_eq_sdiff]
    rw [decide_eq_true_iff]
    rw [Finset.sdiff_eq_empty_iff_subset]
    constructor
    · intro hsub r hr
      have := hsub (List.mem_toFinset.mpr hr)
      exact List.mem_toFinset.mp this
    · intro hmem x hx
      exact List.mem_toFinset.mpr (hmem x (List.mem_toFinset.mp hx))
  have hlay : ∀ required available : List String,
      (checkValidationLayerSupport required available = true ↔ ∀ r ∈ required, r ∈ available) := by
    intro required available
    rw [checkValidationLayerSupport]
    rw [List.all_eq_true]
    constructor
    · intro hall r hr
      rcases List.any_eq_true.mp (hall r hr) with ⟨b, hb, he⟩
      exact (eq_of_beq he) ▸ hb
    · intro hmem r hr
      exact List.any_eq_true.mpr ⟨r, hmem r hr, beq_self_eq_true r⟩
  refine ⟨fun required available => ⟨hdev required available, hlay required available⟩, ?_⟩
  intro req1 req2 av1 av2 hreq hav
  have hmem : (∀ r ∈ req1, r ∈ av1) ↔ (∀ r ∈ req2, r ∈ av2) := by
    constructor
    · intro h1 r hr
      exact hav.mem_iff.mp (h1 r (hreq.mem_iff.mpr hr))
    · intro h1 r hr
      exact hav.mem_iff.mpr (h1 r (hreq.mem_iff.mp hr))
  exact ⟨bool_eq_of_iff ((hdev req1 av1).trans (hmem.trans (hdev req2 av2).symm)),
    bool_eq_of_iff ((hlay req1 av1).trans (hmem.trans (hlay req2 av2).symm))⟩

/-- Claim C3 witness: concrete instantiation of the order-independence part at
a transposed available list, plus concrete evaluation of the check. -/
theorem subset_check_iff_every_required_available_witness :
    checkDeviceExtensionSupport ["VK_KHR_swapchain"] ["VK_KHR_surface", "VK_KHR_swapchain"] =
      checkDeviceExtensionSupport ["VK_KHR_swapchain"] ["VK_KHR_swapchain", "VK_KHR_surface"] ∧
    checkDeviceExtensionSupport ["VK_KHR_swapchain"] ["VK_KHR_surface", "VK_KHR_swapchain"] = true ∧
    checkValidationLayerSupport ["VK_LAYER_KHRONOS_validation"] ["VK_LAYER_KHRONOS_validation"] = true :=
  ⟨(subset_check_iff_every_required_available.2 ["VK_KHR_swapchain"] ["VK_KHR_swapchain"]
      ["VK_KHR_surface", "VK_KHR_swapchain"] ["VK_KHR_swapchain", "VK_KHR_surface"]
      (List.Perm.refl _) (List.Perm.swap "VK_KHR_swapchain" "VK_KHR_surface" [])).1,
    by decide, by decide⟩

theorem isPhysicalDeviceSuitable_iff (d : VkPhysicalDevice) :
    isPhysicalDeviceSuitable d = true ↔
      ((findQueueFamilies d).isComplete = true ∧
       checkDeviceExtensionSupport DEVICE_EXTENSIONS d.availableExtensions = true ∧
       d.formats ≠ [] ∧ d.presentModes ≠ []) := by
  rw [isPhysicalDeviceSuitable]
  cases hext : checkDeviceExtensionSupport DEVICE_EXTENSIONS d.availableExtensions
  · simp [querySwapChainSupport, hext]
  · simp [querySwapChainSupport, hext, and_assoc]

/-- Claim C4: a physical device candidate is unsuitable when its queue-family
indices are incomplete, unsuitable when the required device extensions are not
all available (even with complete indices), unsuitable when extension-suitable
but the surface-format or present-mode list is empty, and suitable exactly
when all three conditions hold; moreover the swapchain data is consulted only
when the extension check holds — with a failing extension check the verdict
does not depend on the format and present-mode lists at all. -/
theorem isPhysicalDeviceSuitable_spec (d : VkPhysicalDevice) :
    ((findQueueFamilies d).isComplete = false → isPhysicalDeviceSuitable d = false) ∧
    (checkDeviceExtensionSupport DEVICE_EXTENSIONS d.availableExtensions = false →
      isPhysicalDeviceSuitable d = false) ∧
    (checkDeviceExtensionSupport DEVICE_EXTENSIONS d.availableExtensions = true →
      (d.formats = [] ∨ d.presentModes = []) → isPhysicalDeviceSuitable d = false) ∧
    (isPhysicalDeviceSuitable d = true ↔
      ((findQueueFamilies d).isComplete = true ∧
       checkDeviceExtensionSupport DEVICE_EXTENSIONS d.availableExtensions = true ∧
       d.formats ≠ [] ∧ d.presentModes ≠ [])) ∧
    (∀ fmts pms, checkDeviceExtensionSupport DEVICE_EXTENSIONS d.availableExtensions = false →
      isPhysicalDeviceSuitable { d with formats := fmts, presentModes := pms } =
        isPhysicalDeviceSuitable d) := by
  have hiff := isPhysicalDeviceSuitable_iff d
  refine ⟨?_, ?_, ?_, hiff, ?_⟩
  · intro h
    cases hs : isPhysicalDeviceSuitable d
    · rfl
    · exact absurd (hiff.mp hs).1 (by simp [h])
  · intro h
    cases hs : isPhysicalDeviceSuitable d
    · rfl
    · exact absurd (hiff.mp hs).2.1 (by simp [h])
  · intro hext hempty
    cases hs : isPhysicalDeviceSuitable d
    · rfl
    · rcases hempty with he | he
      · exact absurd (hiff.mp hs).2.2.1 (by simp [he])
      · exact absurd (hiff.mp hs).2.2.2 (by simp [he])
  · intro fmts pms hext
    cases h1 : isPhysicalDeviceSuitable { d with formats := fmts, presentModes := pms } <;>
      cases h2 : isPhysicalDeviceSuitable d
    · rfl
    · exact absurd (hiff.mp h2).2.1 (by simp [hext])
    · exact absurd ((isPhysicalDeviceSuitable_iff _).mp h1).2.1 (by simp [hext])
    · rfl

/-- Claim C4 witness: a device without the swapchain extension is rejected. -/
theorem isPhysicalDeviceSuitable_spec_witness :
    isPhysicalDeviceSuitable exOverwriteDevice = false :=
  (isPhysicalDeviceSuitable_spec exOverwriteDevice).2.1 (by decide)

theorem find?_first_of_prefix_false {α : Type} (p : α → Bool) :
    ∀ (pre : List α) (d : α) (post : List α), (∀ x ∈ pre, p x = false) → p d = true →
      (pre ++ d :: post).find? p = some d := by
  intro pre
  induction pre with
  | nil =>
      intro d post hpre hd
      exact List.find?_cons_of_pos _ hd
  | cons a pre ih =>
      intro d post hpre hd
      rw [List.cons_append,
        List.find?_cons_of_neg _ (by simp [hpre a (List.mem_cons_self a pre)])]
      exact ih d post (fun x hx => hpre x (List.mem_cons_of_mem a hx)) hd

/-- Claim C5: physical-device selection fails with NoGPUError on an empty
enumeration; returns the first suitable candidate in enumeration order (every
candidate before it being unsuitable, with no scoring or ranking); and fails
with NoSuitableDeviceError when no enumerated candidate is suitable. -/
theorem selectPhysicalDevice_spec :
    (selectPhysicalDevice [] = Except.error VkError.NoGPUError) ∧
    (∀ (pre : List VkPhysicalDevice) (d : VkPhysicalDevice) (post : List VkPhysicalDevice),
      (∀ d2 ∈ pre, isPhysicalDeviceSuitable d2 = false) → isPhysicalDeviceSuitable d = true →
      selectPhysicalDevice (pre ++ d :: post) = Except.ok d) ∧
    (∀ devices : List VkPhysicalDevice, devices ≠ [] →
      (∀ d ∈ devices, isPhysicalDeviceSuitable d = false) →
      selectPhysicalDevice devices = Except.error VkError.NoSuitableDeviceError) := by
  refine ⟨rfl, ?_, ?_⟩
  · intro pre d post hpre hd
    rw [selectPhysicalDevice, if_neg (by simp)]
    rw [find?_first_of_prefix_false _ pre d post hpre hd]
  · intro devices hne hall
    rw [selectPhysicalDevice, if_neg (by simpa using hne)]
    rw [List.find?_eq_none.mpr (by intro x hx; simp [hall x hx])]

/-- Claim C5 witness: with one unsuitable device ahead of a suitable one, the
suitable one is selected. -/
theorem selectPhysicalDevice_spec_witness :
    selectPhysicalDevice [exOverwriteDevice, exSuitableDevice] = Except.ok exSuitableDevice :=
  selectPhysicalDevice_spec.2.1 [exOverwriteDevice] exSuitableDevice []
    (by decide) (by decide)

/-- Claim C6: for every non-empty list of available surface formats, format
selection returns an entry of the list that is 8-bit BGRA sRGB with the
standard non-linear sRGB color space whenever such an entry is present,
regardless of its position; when no such entry is present it returns the
first entry of the list. -/
theorem selectSwapSurfaceFormat_spec (availableFormats : List VkSurfaceFormatKHR)
    (hne : availableFormats ≠ []) :
    ((∃ f ∈ availableFormats, f.format = VK_FORMAT_B8G8R8A8_SRGB ∧
        f.colorSpace = VK_COLOR_SPACE_SRGB_NONLINEAR_KHR) →
      ∃ f, selectSwapSurfaceFormat availableFormats = some f ∧ f ∈ availableFormats ∧
        f.format = VK_FORMAT_B8G8R8A8_SRGB ∧ f.colorSpace = VK_COLOR_SPACE_SRGB_NONLINEAR_KHR) ∧
    ((∀ f ∈ availableFormats, ¬(f.format = VK_FORMAT_B8G8R8A8_SRGB ∧
        f.colorSpace = VK_COLOR_SPACE_SRGB_NONLINEAR_KHR)) →
      selectSwapSurfaceFormat availableFormats = some (availableFormats.head hne)) := by
  constructor
  · rintro ⟨f, hf, h1, h2⟩
    cases hfind : availableFormats.find? (fun f =>
        f.format == VK_FORMAT_B8G8R8A8_SRGB && f.colorSpace == VK_COLOR_SPACE_SRGB_NONLINEAR_KHR) with
    | none =>
        rw [List.find?_eq_none] at hfind
        exact absurd (by simp [h1, h2]) (hfind f hf)
    | some g =>
        refine ⟨g, ?_, List.mem_of_find?_eq_some hfind, ?_⟩
        · rw [selectSwapSurfaceFormat, hfind]
        · have := List.find?_some hfind
          simpa using this
  · intro hall
    rw [selectSwapSurfaceFormat,
      List.find?_eq_none.mpr (by intro f hf; simpa using hall f hf),
      List.head?_eq_head hne]

/-- Claim C6 witness: the preferred format at position 1 is found, and a list
without it yields its first entry. -/
theorem selectSwapSurfaceFormat_spec_witness :
    (∃ f, selectSwapSurfaceFormat [⟨10, 5⟩, ⟨50, 0⟩] = some f ∧
      f ∈ [(⟨10, 5⟩ : VkSurfaceFormatKHR), ⟨50, 0⟩] ∧
      f.format = VK_FORMAT_B8G8R8A8_SRGB ∧ f.colorSpace = VK_COLOR_SPACE_SRGB_NONLINEAR_KHR) ∧
    selectSwapSurfaceFormat [⟨10, 5⟩, ⟨7, 3⟩] = some ⟨10, 5⟩ :=
  ⟨(selectSwapSurfaceFormat_spec [⟨10, 5⟩, ⟨50, 0⟩] (by decide)).1 (by decide),
   ((selectSwapSurfaceFormat_spec [⟨10, 5⟩, ⟨7, 3⟩] (by decide)).2 (by decide)).trans (by decide)⟩

theorem stdClamp_eq_max_min (v lo hi : Nat) (h : lo ≤ hi) :
    stdClamp v lo hi = max lo (min v hi) := by
  rw [stdClamp]
  rcases Nat.lt_or_ge v lo with h1 | h1
  · rw [if_pos h1, Nat.min_eq_left (Nat.le_trans (Nat.le_of_lt h1) h),
      Nat.max_eq_left (Nat.le_of_lt h1)]
  · rw [if_neg (by omega)]
    rcases Nat.lt_or_ge hi v with h2 | h2
    · rw [if_pos h2, Nat.min_eq_right (Nat.le_of_lt h2), Nat.max_eq_right h]
    · rw [if_neg (by omega), Nat.min_eq_left h2, Nat.max_eq_right h1]

/-- Claim C8 counterexample: a capabilities record whose current extent is
(max-uint32, 720) is not the undefined-sentinel pair — so under the claim it
is "defined" and should be returned verbatim — yet selectSwapExtent, which
inspects only the width component, takes the clamping branch and returns the
window size instead. -/
theorem selectSwapExtent_not_verbatim_on_defined :
    exCapsHalfSentinel.currentExtent ≠ ⟨UINT32_MAX, UINT32_MAX⟩ ∧
    selectSwapExtent ⟨800, 600⟩ exCapsHalfSentinel ≠ exCapsHalfSentinel.currentExtent ∧
    selectSwapExtent ⟨800, 600⟩ exCapsHalfSentinel = ⟨800, 600⟩ := by
  decide

/-- Claim C8 (amended): definedness of the current extent is judged by its
width component alone — when currentExtent.width differs from the max-uint32
sentinel the current extent is returned verbatim (even if its height is the
sentinel value), and when currentExtent.width equals the sentinel the
window's width and height are each independently clamped into the
[minImageExtent, maxImageExtent] range of their axis. -/
theorem selectSwapExtent_spec (window : Window) (capabilities : VkSurfaceCapabilitiesKHR) :
    (capabilities.currentExtent.width ≠ UINT32_MAX →
      selectSwapExtent window capabilities = capabilities.currentExtent) ∧
    (capabilities.currentExtent.width = UINT32_MAX →
      capabilities.minImageExtent.width ≤ capabilities.maxImageExtent.width →
      capabilities.minImageExtent.height ≤ capabilities.maxImageExtent.height →
      selectSwapExtent window capabilities =
        ⟨max capabilities.minImageExtent.width
           (min (window.width % 4294967296) capabilities.maxImageExtent.width),
         max capabilities.minImageExtent.height
           (min (window.height % 4294967296) capabilities.maxImageExtent.height)⟩) := by
  constructor
  · intro h
    rw [selectSwapExtent, if_pos h]
  · intro h hw hh
    rw [selectSwapExtent, if_neg (by simpa using h),
      stdClamp_eq_max_min _ _ _ hw, stdClamp_eq_max_min _ _ _ hh]

/-- Claim C8 witness: a defined width is returned verbatim, and the sentinel
record clamps a 1920 by 1080 window into a 1280 by 720 maximum. -/
theorem selectSwapExtent_spec_witness :
    selectSwapExtent ⟨800, 600⟩ exCapsDefined = ⟨1024, 768⟩ ∧
    selectSwapExtent ⟨1920, 1080⟩ exCapsSentinel = ⟨1280, 720⟩ :=
  ⟨((selectSwapExtent_spec ⟨800, 600⟩ exCapsDefined).1 (by decide)).trans (by decide),
   ((selectSwapExtent_spec ⟨1920, 1080⟩ exCapsSentinel).2
      (by decide) (by decide) (by decide)).trans (by decide)⟩

/-- Claim C9: the requested swapchain image count is minImageCount + 1 (uint32
arithmetic), reduced to maxImageCount when maxImageCount is nonzero and less
than that sum, with a zero maxImageCount meaning no upper bound; in
particular min=2,max=0 gives 3, min=2,max=3 gives 3, and min=2,max=8
gives 3. -/
theorem swapChainImageCount_spec :
    (∀ capabilities : VkSurfaceCapabilitiesKHR,
      capabilities.minImageCount + 1 < 4294967296 →
      ((capabilities.maxImageCount = 0 →
          swapChainImageCount capabilities = capabilities.minImageCount + 1) ∧
       (capabilities.maxImageCount ≠ 0 →
          capabilities.maxImageCount < capabilities.minImageCount + 1 →
          swapChainImageCount capabilities = capabilities.maxImageCount) ∧
       (capabilities.maxImageCount ≠ 0 →
          capabilities.minImageCount + 1 ≤ capabilities.maxImageCount →
          swapChainImageCount capabilities = capabilities.minImageCount + 1))) ∧
    swapChainImageCount (exCapsCount 2 0) = 3 ∧
    swapChainImageCount (exCapsCount 2 3) = 3 ∧
    swapChainImageCount (exCapsCount 2 8) = 3 := by
  refine ⟨?_, by decide, by decide, by decide⟩
  intro capabilities hlt
  have hmod : (capabilities.minImageCount + 1) % 4294967296 = capabilities.minImageCount + 1 :=
    Nat.mod_eq_of_lt hlt
  refine ⟨?_, ?_, ?_⟩
  · intro h0
    rw [swapChainImageCount]
    simp only [hmod]
    rw [if_neg (by omega)]
  · intro h0 hless
    rw [swapChainImageCount]
    simp only [hmod]
    rw [if_pos (by omega)]
  · intro h0 hge
    rw [swapChainImageCount]
    simp only [hmod]
    rw [if_neg (by omega)]

/-- Claim C9 witness: min=2, max=3 concretely yields 3 through the
nonzero-bound case. -/
theorem swapChainImageCount_spec_witness :
    swapChainImageCount (exCapsCount 2 3) = 3 :=
  ((swapChainImageCount_spec.1 (exCapsCount 2 3) (by decide)).2.2
    (by decide) (by decide)).trans (by decide)

/-- Claim C10: when a device passed the suitability check (the embedding
recomputes findQueueFamilies from the same device record, so the re-query
yields the same data), the recomputed QueueFamilyIndices have both fields
present, and the optional-value extractions performed by createLogicalDevice
(the unique-queue-family set) and by createSwapChain (the queue-family index
array) both succeed — the empty-optional failure branch is unreachable. -/
theorem suitable_queue_value_extractions_succeed (d : VkPhysicalDevice)
    (h : isPhysicalDeviceSuitable d = true) :
    (findQueueFamilies d).isComplete = true ∧
    (createLogicalDeviceUniqueQueueFamilies d).isSome = true ∧
    (createSwapChainQueueFamilyIndices d).isSome = true := by
  have hc := ((isPhysicalDeviceSuitable_iff d).mp h).1
  have hc2 := hc
  rw [QueueFamilyIndices.isComplete, Bool.and_eq_true] at hc2
  rcases Option.isSome_iff_exists.mp hc2.1 with ⟨g, hg⟩
  rcases Option.isSome_iff_exists.mp hc2.2 with ⟨p, hp⟩
  refine ⟨hc, ?_, ?_⟩
  · simp [createLogicalDeviceUniqueQueueFamilies, hg, hp]
  · simp [createSwapChainQueueFamilyIndices, hg, hp]

/-- Claim C10 witness: on the concrete suitable device both extractions
succeed. -/
theorem suitable_queue_value_extractions_succeed_witness :
    (createLogicalDeviceUniqueQueueFamilies exSuitableDevice).isSome = true ∧
    (createSwapChainQueueFamilyIndices exSuitableDevice).isSome = true :=
  ⟨(suitable_queue_value_extractions_succeed exSuitableDevice (by decide)).2.1,
   (suitable_queue_value_extractions_succeed exSuitableDevice (by decide)).2.2⟩

theorem success_trace_eq (v : Bool) (n : Nat) :
    runTrace v n none =
      (createdResources v n).map Event.create ++ (destroyedResources v n).map Event.destroy := by
  cases v <;>
    simp [runTrace, runStep, cleanupEvents, createdResources, destroyedResources,
      List.map_append, List.map_map, Function.comp_def]

theorem failure_trace_eq (v : Bool) (n : Nat) (fp : FailPoint) (h : failReached v n fp) :
    ∃ rs : List Resource, runTrace v n (some fp) = rs.map Event.create ∧ rs.Nodup := by
  cases fp with
  | atInstance =>
      cases v
      · exact ⟨[Resource.glfwLibrary, Resource.window], rfl, by decide⟩
      · exact ⟨[Resource.glfwLibrary, Resource.window], rfl, by decide⟩
  | atDebugMessenger =>
      have hv : v = true := h
      subst hv
      exact ⟨[Resource.glfwLibrary, Resource.window, Resource.vkInstance], rfl, by decide⟩
  | atSurface =>
      cases v
      · exact ⟨[Resource.glfwLibrary, Resource.window, Resource.vkInstance], rfl, by decide⟩
      · exact ⟨[Resource.glfwLibrary, Resource.window, Resource.vkInstance,
          Resource.debugMessenger], rfl, by decide⟩
  | atSelectPhysicalDevice =>
      cases v
      · exact ⟨[Resource.glfwLibrary, Resource.window, Resource.vkInstance,
          Resource.surface], rfl, by decide⟩
      · exact ⟨[Resource.glfwLibrary, Resource.window, Resource.vkInstance,
          Resource.debugMessenger, Resource.surface], rfl, by decide⟩
  | atLogicalDevice =>
      cases v
      · exact ⟨[Resource.glfwLibrary, Resource.window, Resource.vkInstance,
          Resource.surface], rfl, by decide⟩
      · exact ⟨[Resource.glfwLibrary, Resource.window, Resource.vkInstance,
          Resource.debugMessenger, Resource.surface], rfl, by decide⟩
  | atSwapChain =>
      cases v
      · exact ⟨[Resource.glfwLibrary, Resource.window, Resource.vkInstance,
          Resource.surface, Resource.device], rfl, by decide⟩
      · exact ⟨[Resource.glfwLibrary, Resource.window, Resource.vkInstance,
          Resource.debugMessenger, Resource.surface, Resource.device], rfl, by decide⟩
  | atImageView k =>
      have hk : k < n := h
      have hd : decide (k < n) = true := decide_eq_true hk
      cases v
      · refine ⟨[Resource.glfwLibrary, Resource.window, Resource.vkInstance,
          Resource.surface, Resource.device, Resource.swapChain] ++
          (List.range k).map Resource.imageView, ?_, ?_⟩
        · simp [runTrace, runStep, hd, List.map_append, List.map_map, Function.comp_def]
        · rw [List.nodup_append]
          refine ⟨by decide, List.Nodup.map (fun a b hab => by simpa using hab)
            (List.nodup_range k), ?_⟩
          intro a ha hb
          rcases List.mem_map.mp hb with ⟨i, _, rfl⟩
          simp at ha
      · refine ⟨[Resource.glfwLibrary, Resource.window, Resource.vkInstance,
          Resource.debugMessenger, Resource.surface, Resource.device, Resource.swapChain] ++
          (List.range k).map Resource.imageView, ?_, ?_⟩
        · simp [runTrace, runStep, hd, List.map_append, List.map_map, Function.comp_def]
        · rw [List.nodup_append]
          refine ⟨by decide, List.Nodup.map (fun a b hab => by simpa using hab)
            (List.nodup_range k), ?_⟩
          intro a ha hb
          rcases List.mem_map.mp hb with ⟨i, _, rfl⟩
          simp at ha

theorem imageView_map_nodup (n : Nat) : ((List.range n).map Resource.imageView).Nodup :=
  List.Nodup.map (fun a b hab => by simpa using hab) (List.nodup_range n)

theorem created_nodup (v : Bool) (n : Nat) : (createdResources v n).Nodup := by
  cases v <;>
    simp [createdResources, List.nodup_cons, imageView_map_nodup, List.mem_map]

theorem destroyed_count_eq_created (v : Bool) (n : Nat) (r : Resource) :
    (destroyedResources v n).count r = (createdResources v n).count r := by
  cases v <;> rcases r <;>
    simp [createdResources, destroyedResources, List.count_append, List.count_cons]

theorem count_map_create (C : List Resource) (r : Resource) :
    (C.map Event.create).count (Event.create r) = C.count r :=
  List.count_map_of_injective C Event.create (fun a b hab => by injection hab) r

theorem count_map_destroy (D : List Resource) (r : Resource) :
    (D.map Event.destroy).count (Event.destroy r) = D.count r :=
  List.count_map_of_injective D Event.destroy (fun a b hab => by injection hab) r

theorem count_create_in_destroy_map (D : List Resource) (r : Resource) :
    (D.map Event.destroy).count (Event.create r) = 0 :=
  List.count_eq_zero.mpr (by simp)

theorem count_destroy_in_create_map (C : List Resource) (r : Resource) :
    (C.map Event.create).count (Event.destroy r) = 0 :=
  List.count_eq_zero.mpr (by simp)

/-- Claim C2 counterexample: injecting a failure at image-view index 1 (with
two swapchain images, validation on) leaves image view 0 created once but
destroyed zero times — the exception propagates out of App::run past cleanup,
so resources created before the failure point are not destroyed at all,
contradicting "destroyed exactly once ... in particular, image views created
before a failing image-view index are still destroyed during teardown". -/
theorem runTrace_failure_leaks :
    (runTrace true 2 (some (FailPoint.atImageView 1))).count
        (Event.create (Resource.imageView 0)) = 1 ∧
    (runTrace true 2 (some (FailPoint.atImageView 1))).count
        (Event.destroy (Resource.imageView 0)) = 0 ∧
    (runTrace true 2 (some FailPoint.atSurface)).count (Event.create Resource.vkInstance) = 1 ∧
    (runTrace true 2 (some FailPoint.atSurface)).count (Event.destroy Resource.vkInstance) = 0 := by
  decide

/-- Claim C2 (amended): when a failure is injected at any reachable
initialization step, App::cleanup is never invoked — the exception propagates
out of App::run to main — so the run trace contains no destruction at all:
every resource created before the failure point, including image views
created before a failing image-view index, is created (at most once) and then
leaked, not destroyed. Only when every initialization step succeeds does
teardown run, and then each resource is destroyed exactly as many times as it
was created — exactly once for the created ones, with no double-destroy. -/
theorem runTrace_spec :
    (∀ (v : Bool) (n : Nat) (fp : FailPoint), failReached v n fp →
      (∀ e ∈ runTrace v n (some fp), e.isDestroy = false) ∧
      (∀ r : Resource, (runTrace v n (some fp)).count (Event.create r) ≤ 1)) ∧
    (∀ (v : Bool) (n : Nat) (r : Resource),
      (runTrace v n none).count (Event.destroy r) = (runTrace v n none).count (Event.create r) ∧
      (runTrace v n none).count (Event.create r) ≤ 1) := by
  constructor
  · intro v n fp h
    obtain ⟨rs, heq, hnd⟩ := failure_trace_eq v n fp h
    rw [heq]
    constructor
    · intro e he
      rcases List.mem_map.mp he with ⟨r, _, rfl⟩
      rfl
    · intro r
      rw [count_map_create]
      exact List.nodup_iff_count_le_one.mp hnd r
  · intro v n r
    rw [success_trace_eq, List.count_append, List.count_append, count_map_create,
      count_map_destroy, count_create_in_destroy_map, count_destroy_in_create_map]
    constructor
    · simpa using destroyed_count_eq_created v n r
    · simpa using List.nodup_iff_count_le_one.mp (created_nodup v n) r

/-- Claim C2 witness: concrete instantiations — a failure at image-view
index 1 of 2 leaves no destroy events for the instance, and the successful
run destroys the instance exactly as often as it creates it. -/
theorem runTrace_spec_witness :
    (∀ e ∈ runTrace true 2 (some (FailPoint.atImageView 1)), e.isDestroy = false) ∧
    (runTrace true 2 none).count (Event.destroy Resource.vkInstance) =
      (runTrace true 2 none).count (Event.create Resource.vkInstance) :=
  ⟨(runTrace_spec.1 true 2 (FailPoint.atImageView 1) (by simp [failReached])).1,
   (runTrace_spec.2 true 2 Resource.vkInstance).1⟩

end HelloWindow
